import Mathlib

/-!
Verification of the nydus-snapshotter daemon-configuration subsystem
(`config/daemonconfig/daemonconfig.go`): the secret-redacting serializer
`serializeWithSecretFilter` and the `SupplementDaemonConfig` orchestration.

The Go reflection walk is embedded shallowly: a `GoValue` is the runtime
shape of a Go value as `reflect` sees it (strings, ints, bools, slices,
maps, structs, pointers, with nil-ability of slices, maps and pointers
made explicit), and a `GoField` is one struct field together with its
`json:"..."` and `secret:"..."` tags.
-/

mutual

inductive GoValue where
  | vString (s : String)
  | vInt (n : Int)
  | vBool (b : Bool)
  | vSlice (elems : Option (List GoValue))
  | vMap (entries : Option (List (String × GoValue)))
  | vStruct (fields : List GoField)
  | vPtr (pointee : Option GoValue)

inductive GoField where
  | mk (name jsonTag secretTag : String) (value : GoValue)

end

/-- The value a redacted entry holds: either the literal Go value
(`field.Interface()`), or a nested redacted object. -/
inductive RValue where
  | lit (v : GoValue)
  | obj (entries : List (String × RValue))

def GoField.name : GoField → String
  | .mk n _ _ _ => n

def GoField.jsonTag : GoField → String
  | .mk _ j _ _ => j

def GoField.secretTag : GoField → String
  | .mk _ _ s _ => s

def GoField.value : GoField → GoValue
  | .mk _ _ _ v => v

@[simp] theorem GoField.name_mk (n j s : String) (v : GoValue) :
    (GoField.mk n j s v).name = n := rfl

@[simp] theorem GoField.jsonTag_mk (n j s : String) (v : GoValue) :
    (GoField.mk n j s v).jsonTag = j := rfl

@[simp] theorem GoField.secretTag_mk (n j s : String) (v : GoValue) :
    (GoField.mk n j s v).secretTag = s := rfl

@[simp] theorem GoField.value_mk (n j s : String) (v : GoValue) :
    (GoField.mk n j s v).value = v := rfl

/-- Go's `strings.Split(s, ",")`, written over the character list so that it
is structurally recursive: split at every comma; the empty string yields
`[""]`. -/
def splitCommaAux : List Char → List Char → List String
  | [], acc => [String.mk acc.reverse]
  | c :: cs, acc =>
    if c = ',' then String.mk acc.reverse :: splitCommaAux cs []
    else splitCommaAux cs (c :: acc)

def splitComma (s : String) : List String :=
  splitCommaAux s.data []

/-- `jsonTags := strings.Split(tag, ","); for _, tag := range jsonTags { if
tag == "omitempty" { ... } }` — the loop scans every component, the name
component included. -/
def hasOmitempty (tag : String) : Bool :=
  (splitComma tag).contains "omitempty"

/-- `jsonTags[0]`: the key a rendered field is stored under. `splitComma`
never returns `[]`, so the default is never used. -/
def jsonKey (tag : String) : String :=
  (splitComma tag).headD ""

/-- `field.Kind() == reflect.Ptr && field.IsNil()`. -/
def isNilPtr : GoValue → Bool
  | .vPtr none => true
  | _ => false

mutual

/-- `reflect.DeepEqual(reflect.Zero(field.Type()).Interface(),
field.Interface())`: the value is deeply equal to its type's zero value.
A nil slice/map/pointer is zero; a non-nil one (even empty) is not, as in
Go's `reflect.DeepEqual`. -/
def GoValue.isZero : GoValue → Bool
  | .vString s => s == ""
  | .vInt n => n == 0
  | .vBool b => b == false
  | .vSlice o => o.isNone
  | .vMap o => o.isNone
  | .vStruct fs => goFieldsZero fs
  | .vPtr o => o.isNone
termination_by structural v => v

def goFieldsZero : List GoField → Bool
  | [] => true
  | .mk _ _ _ v :: fs => v.isZero && goFieldsZero fs
termination_by structural fs => fs

end

mutual

/-- The field loop of `serializeWithSecretFilter`: each field contributes
its entries (none when filtered out) in declaration order. -/
def serializeFields : List GoField → List (String × RValue)
  | [] => []
  | f :: rest => serializeField f ++ serializeFields rest
termination_by structural fs => fs

/-- One iteration of the loop body: skip fields tagged `secret:"true"`,
nil pointers, and zero values of `omitempty` fields; recurse into struct
fields and through non-nil pointer fields; render everything else as the
literal value under key `jsonTags[0]`. A non-nil pointer to a non-struct
would make the Go code panic on `NumField`; the embedding returns an empty
object there (the case is unreachable for the configuration types). -/
def serializeField : GoField → List (String × RValue)
  | .mk _ jTag sTag v =>
    if sTag == "true" then []
    else if isNilPtr v then []
    else if hasOmitempty jTag && v.isZero then []
    else
      match v with
      | .vStruct gs => [(jsonKey jTag, .obj (serializeFields gs))]
      | .vPtr (some (.vStruct gs)) => [(jsonKey jTag, .obj (serializeFields gs))]
      | .vPtr _ => [(jsonKey jTag, .obj [])]
      | w => [(jsonKey jTag, .lit w)]
termination_by structural f => f

end

/-- `serializeWithSecretFilter(obj)`: unwrap one leading pointer, then walk
the struct's fields. A non-struct argument makes the Go code panic on
`NumField`; the embedding returns the empty map there. -/
def serializeWithSecretFilter (obj : GoValue) : List (String × RValue) :=
  match obj with
  | .vStruct fs => serializeFields fs
  | .vPtr (some (.vStruct fs)) => serializeFields fs
  | _ => []

example : serializeFields
    [.mk "Auth" "auth,omitempty" "true" (.vString "tok"),
     .mk "Host" "host,omitempty" "" (.vString "example.com")] =
    [("host", .lit (.vString "example.com"))] := rfl

/-! ## The concrete configuration structs

`MirrorConfig`, `BackendConfig` (with its anonymous `Proxy` struct) and
`DeviceConfig`, with their `json` and `secret` tags copied from the source.
`uint8` is embedded as `Int` (no arithmetic is performed on it); nil-able
slices and maps are `Option` of a list. Each struct gets the `GoValue` its
`reflect` walk observes. -/

structure MirrorConfig where
  Host : String
  Headers : Option (List (String × String))
  HealthCheckInterval : Int
  FailureLimit : Int
  PingURL : String
deriving DecidableEq

structure ProxyStruct where
  URL : String
  Fallback : Bool
  PingURL : String
  CheckInterval : Int
  UseHTTP : Bool
deriving DecidableEq

structure BackendConfig where
  BlobFile : String
  Dir : String
  ReadAhead : Bool
  ReadAheadSec : Int
  Host : String
  Repo : String
  Auth : String
  RegistryToken : String
  BlobURLScheme : String
  BlobRedirectedHost : String
  Mirrors : Option (List MirrorConfig)
  EndPoint : String
  AccessKeyID : String
  AccessKeySecret : String
  BucketName : String
  ObjectPrefix : String
  Scheme : String
  SkipVerify : Bool
  Proxy : ProxyStruct
  Timeout : Int
  ConnectTimeout : Int
  RetryLimit : Int
deriving DecidableEq

structure CacheInnerConfig where
  WorkDir : String
  DisableIndexedMap : Bool
deriving DecidableEq

structure CacheStruct where
  CacheType : String
  Compressed : Bool
  Config : CacheInnerConfig
deriving DecidableEq

structure DeviceBackend where
  BackendType : String
  Config : BackendConfig
deriving DecidableEq

structure DeviceConfig where
  Backend : DeviceBackend
  Cache : CacheStruct
deriving DecidableEq

def MirrorConfig.fields (m : MirrorConfig) : List GoField :=
  [.mk "Host" "host,omitempty" "" (.vString m.Host),
   .mk "Headers" "headers,omitempty" ""
     (.vMap (m.Headers.map (List.map (fun p => (p.1, GoValue.vString p.2))))),
   .mk "HealthCheckInterval" "health_check_interval,omitempty" ""
     (.vInt m.HealthCheckInterval),
   .mk "FailureLimit" "failure_limit,omitempty" "" (.vInt m.FailureLimit),
   .mk "PingURL" "ping_url,omitempty" "" (.vString m.PingURL)]

def ProxyStruct.fields (p : ProxyStruct) : List GoField :=
  [.mk "URL" "url,omitempty" "" (.vString p.URL),
   .mk "Fallback" "fallback" "" (.vBool p.Fallback),
   .mk "PingURL" "ping_url,omitempty" "" (.vString p.PingURL),
   .mk "CheckInterval" "check_interval,omitempty" "" (.vInt p.CheckInterval),
   .mk "UseHTTP" "use_http,omitempty" "" (.vBool p.UseHTTP)]

def BackendConfig.fields (bc : BackendConfig) : List GoField :=
  [.mk "BlobFile" "blob_file,omitempty" "" (.vString bc.BlobFile),
   .mk "Dir" "dir,omitempty" "" (.vString bc.Dir),
   .mk "ReadAhead" "readahead" "" (.vBool bc.ReadAhead),
   .mk "ReadAheadSec" "readahead_sec,omitempty" "" (.vInt bc.ReadAheadSec),
   .mk "Host" "host,omitempty" "" (.vString bc.Host),
   .mk "Repo" "repo,omitempty" "" (.vString bc.Repo),
   .mk "Auth" "auth,omitempty" "true" (.vString bc.Auth),
   .mk "RegistryToken" "registry_token,omitempty" "true" (.vString bc.RegistryToken),
   .mk "BlobURLScheme" "blob_url_scheme,omitempty" "" (.vString bc.BlobURLScheme),
   .mk "BlobRedirectedHost" "blob_redirected_host,omitempty" ""
     (.vString bc.BlobRedirectedHost),
   .mk "Mirrors" "mirrors,omitempty" ""
     (.vSlice (bc.Mirrors.map (List.map (fun m => GoValue.vStruct m.fields)))),
   .mk "EndPoint" "endpoint,omitempty" "" (.vString bc.EndPoint),
   .mk "AccessKeyID" "access_key_id,omitempty" "true" (.vString bc.AccessKeyID),
   .mk "AccessKeySecret" "access_key_secret,omitempty" "true"
     (.vString bc.AccessKeySecret),
   .mk "BucketName" "bucket_name,omitempty" "" (.vString bc.BucketName),
   .mk "ObjectPrefix" "object_prefix,omitempty" "" (.vString bc.ObjectPrefix),
   .mk "Scheme" "scheme,omitempty" "" (.vString bc.Scheme),
   .mk "SkipVerify" "skip_verify,omitempty" "" (.vBool bc.SkipVerify),
   .mk "Proxy" "proxy,omitempty" "" (.vStruct bc.Proxy.fields),
   .mk "Timeout" "timeout,omitempty" "" (.vInt bc.Timeout),
   .mk "ConnectTimeout" "connect_timeout,omitempty" "" (.vInt bc.ConnectTimeout),
   .mk "RetryLimit" "retry_limit,omitempty" "" (.vInt bc.RetryLimit)]

def BackendConfig.toGoValue (bc : BackendConfig) : GoValue :=
  .vStruct bc.fields

def CacheStruct.fields (c : CacheStruct) : List GoField :=
  [.mk "CacheType" "type" "" (.vString c.CacheType),
   .mk "Compressed" "compressed,omitempty" "" (.vBool c.Compressed),
   .mk "Config" "config" ""
     (.vStruct [.mk "WorkDir" "work_dir" "" (.vString c.Config.WorkDir),
                .mk "DisableIndexedMap" "disable_indexed_map" ""
                  (.vBool c.Config.DisableIndexedMap)])]

def DeviceConfig.fields (d : DeviceConfig) : List GoField :=
  [.mk "Backend" "backend" ""
     (.vStruct [.mk "BackendType" "type" "" (.vString d.Backend.BackendType),
                .mk "Config" "config" "" d.Backend.Config.toGoValue]),
   .mk "Cache" "cache" "" (.vStruct d.Cache.fields)]

def DeviceConfig.toGoValue (d : DeviceConfig) : GoValue :=
  .vStruct d.fields

/-! ## The supplement orchestration

`SupplementDaemonConfig(c, info)` is embedded as a function over an
abstract `DaemonConfig` variant and the external collaborators
(`registry.ParseImage`, `registry.ConvertToVPCHost`,
`auth.GetRegistryKeyChain`, `config.GetMirrorsConfigDir`), which live
outside this source file and are kept as parameters. The calls the
function makes on the variant (`UpdateMirrors`, `Supplement`, `FillAuth`)
are recorded as an event trace, in call order, together with the returned
error, so that claims about which mutations happen on which path are
statements about the trace. -/

structure Image where
  Host : String
  Repo : String
deriving DecidableEq

structure PassKeyChain where
  Username : String
  Password : String
deriving DecidableEq

structure SupplementInfo where
  imageID : String
  snapshotID : String
  vpcRegistry : Bool
  labels : List (String × String)
  params : List (String × String)
deriving DecidableEq

structure SupplementEnv where
  parseImage : String → Except String Image
  convertToVPCHost : String → String
  getRegistryKeyChain : String → String → List (String × String) → Option PassKeyChain
  mirrorsConfigDir : String

/-- The variant as `SupplementDaemonConfig` observes it: its backend type
(`c.StorageBackend()`), and whether its `UpdateMirrors` method fails for a
given directory and host (`some e` is the error `e`, `none` is success). -/
structure DaemonConfigModel where
  backendType : String
  updateMirrorsErr : String → String → Option String

inductive ConfigEvent where
  | updateMirrors (dir host : String)
  | supplement (host repo snapshotID : String) (params : List (String × String))
  | fillAuth (kc : Option PassKeyChain)
deriving DecidableEq

/-- `SupplementDaemonConfig`: parse the image reference, dispatch on the
backend type; for the registry backend derive the effective host (VPC
rewrite, or `docker.io` → `index.docker.io`), update mirrors, resolve the
keychain and supplement/fill auth. Returns the trace of variant method
calls and the error (`none` on success), with error strings built as
`errors.Wrapf`/`errors.Errorf` build them. -/
def SupplementDaemonConfig (c : DaemonConfigModel) (env : SupplementEnv)
    (info : SupplementInfo) : List ConfigEvent × Option String :=
  match env.parseImage info.imageID with
  | .error e => ([], some ("parse image " ++ info.imageID ++ ": " ++ e))
  | .ok image =>
    if c.backendType == "registry" then
      let registryHost :=
        if info.vpcRegistry then env.convertToVPCHost image.Host
        else if image.Host == "docker.io" then "index.docker.io"
        else image.Host
      match c.updateMirrorsErr env.mirrorsConfigDir registryHost with
      | some e =>
        ([.updateMirrors env.mirrorsConfigDir registryHost],
         some ("update mirrors config: " ++ e))
      | none =>
        let keyChain := env.getRegistryKeyChain registryHost info.imageID info.labels
        ([.updateMirrors env.mirrorsConfigDir registryHost,
          .supplement registryHost image.Repo info.snapshotID info.params,
          .fillAuth keyChain], none)
    else if c.backendType == "localfs" then ([], none)
    else if c.backendType == "oss" then ([], none)
    else ([], some ("unknown backend type " ++ c.backendType))

/-- The effective registry host of `SupplementDaemonConfig`'s registry
branch: the VPC rewrite when `info.IsVPCRegistry()`, the canonical
`index.docker.io` for `docker.io`, the parsed host otherwise. -/
def effectiveRegistryHost (env : SupplementEnv) (info : SupplementInfo)
    (img : Image) : String :=
  if info.vpcRegistry then env.convertToVPCHost img.Host
  else if img.Host == "docker.io" then "index.docker.io"
  else img.Host

/-- Modelled from the spec: `registry.ParseImage` (package
`pkg/utils/registry`, not among the given source files) is "an
image-reference parser (`string -> {host, repo}`, fails on malformed
input)". The model splits at the first slash into host and repository and
rejects references with an empty host or no slash, so that
`"docker.io/library/busybox:latest"` parses to host `"docker.io"` and repo
`"library/busybox:latest"` and the empty reference is malformed.
`splitFirstSlash` is its helper: the text before the first slash, and the
text after it. -/
def splitFirstSlash : List Char → List Char → Option (String × String)
  | [], _ => none
  | c :: cs, acc =>
    if c = '/' then some (String.mk acc.reverse, String.mk cs)
    else splitFirstSlash cs (c :: acc)

def parseImageSpec (imageID : String) : Except String Image :=
  match splitFirstSlash imageID.data [] with
  | none => .error "invalid reference format"
  | some (host, repo) =>
    if host = "" then .error "invalid reference format"
    else .ok ⟨host, repo⟩

/-! ## The variant's observable state

The concrete `Supplement`, `FillAuth` and `UpdateMirrors` implementations
(the fuse and fscache variants) are not among the given source files; they
are modelled from the spec's contract for the `ConfigVariant` so that
state-level claims (idempotence) can be settled. -/

/-- Modelled from the spec: the observable registry/auth state of a
variant — "backend host, repo, mirrors, auth" plus the snapshot id and
request parameters `Supplement` stores. -/
structure VariantState where
  host : String
  repo : String
  snapshotID : String
  params : List (String × String)
  mirrors : List MirrorConfig
  auth : Option PassKeyChain
deriving DecidableEq

/-- Modelled from the spec: `Supplement(host, repo, snapshotID, params)`
"mutates registry/repository fields; … does not validate `host`/`repo`
beyond storing them". -/
def VariantState.supplement (st : VariantState) (host repo snapshotID : String)
    (params : List (String × String)) : VariantState :=
  { st with host := host, repo := repo, snapshotID := snapshotID, params := params }

/-- Modelled from the spec: `FillAuth(keychain)` "copies the resolved
authentication material from the keychain into the backend's auth field
only when the keychain is non-empty; never clears a pre-existing,
manually configured auth value with an empty one". -/
def VariantState.fillAuth (st : VariantState) (kc : Option PassKeyChain) :
    VariantState :=
  match kc with
  | some k => { st with auth := some k }
  | none => st

/-- Modelled from the spec: `UpdateMirrors(mirrorsDir, registryHost)`
"replaces the mirror list by reading mirror definitions associated with
`registryHost` from `mirrorsDir`; … leaves the previous mirror list
untouched on failure (no partial replacement)". The directory read is the
deterministic collaborator `mirrorsFor`. -/
def VariantState.updateMirrors (st : VariantState)
    (mirrorsFor : String → String → Except String (List MirrorConfig))
    (dir host : String) : VariantState × Option String :=
  match mirrorsFor dir host with
  | .error e => (st, some e)
  | .ok ms => ({ st with mirrors := ms }, none)

/-- `SupplementDaemonConfig` again, at the level of the variant's
observable state: the same control flow as the trace model, with the
modelled `ConfigVariant` operations applied to a `VariantState`. -/
def SupplementDaemonConfigState (backendType : String)
    (mirrorsFor : String → String → Except String (List MirrorConfig))
    (env : SupplementEnv) (info : SupplementInfo) (st : VariantState) :
    VariantState × Option String :=
  match env.parseImage info.imageID with
  | .error e => (st, some ("parse image " ++ info.imageID ++ ": " ++ e))
  | .ok image =>
    if backendType == "registry" then
      let registryHost := effectiveRegistryHost env info image
      match st.updateMirrors mirrorsFor env.mirrorsConfigDir registryHost with
      | (st1, some e) => (st1, some ("update mirrors config: " ++ e))
      | (st1, none) =>
        let keyChain := env.getRegistryKeyChain registryHost info.imageID info.labels
        ((st1.supplement registryHost image.Repo info.snapshotID
            info.params).fillAuth keyChain, none)
    else if backendType == "localfs" then (st, none)
    else if backendType == "oss" then (st, none)
    else (st, some ("unknown backend type " ++ backendType))

/-! ## Helper lemmas about the redactor -/

/-- The loop body's definition, as a rewriting equation. -/
theorem serializeField_def (n j s : String) (v : GoValue) :
    serializeField (.mk n j s v) =
      (if s == "true" then []
       else if isNilPtr v then []
       else if hasOmitempty j && v.isZero then []
       else
         match v with
         | .vStruct gs => [(jsonKey j, .obj (serializeFields gs))]
         | .vPtr (some (.vStruct gs)) => [(jsonKey j, .obj (serializeFields gs))]
         | .vPtr _ => [(jsonKey j, .obj [])]
         | w => [(jsonKey j, .lit w)]) := by
  cases v with
  | vString t => rfl
  | vInt k => rfl
  | vBool b => rfl
  | vSlice o => rfl
  | vMap o => rfl
  | vStruct gs => rfl
  | vPtr o =>
    cases o with
    | none => rfl
    | some p => cases p <;> rfl

/-- The walk's two list equations. -/
theorem serializeFields_nil : serializeFields [] = [] := rfl

theorem serializeFields_cons (f : GoField) (rest : List GoField) :
    serializeFields (f :: rest) = serializeField f ++ serializeFields rest := rfl

theorem serializeField_secret (n j s : String) (v : GoValue) (h : s = "true") :
    serializeField (.mk n j s v) = [] := by
  subst h; simp [serializeField_def]

/-- Every entry a field contributes is keyed by `jsonTags[0]`: a field
either contributes nothing or exactly one entry under `jsonKey` of its
json tag. -/
theorem serializeField_key (n j s : String) (v : GoValue) :
    serializeField (.mk n j s v) = [] ∨
      ∃ rv, serializeField (.mk n j s v) = [(jsonKey j, rv)] := by
  by_cases h1 : (s == "true") = true
  · left; simp [serializeField_def, h1]
  · by_cases h2 : isNilPtr v = true
    · left; simp [serializeField_def, h1, h2]
    · by_cases h3 : (hasOmitempty j && v.isZero) = true
      · left; simp [serializeField_def, h1, h2, h3]
      · right
        cases v with
        | vString t => exact ⟨.lit (.vString t), by simp [serializeField_def, h1, h2, h3]⟩
        | vInt k => exact ⟨.lit (.vInt k), by simp [serializeField_def, h1, h2, h3]⟩
        | vBool b => exact ⟨.lit (.vBool b), by simp [serializeField_def, h1, h2, h3]⟩
        | vSlice o => exact ⟨.lit (.vSlice o), by simp [serializeField_def, h1, h2, h3]⟩
        | vMap o => exact ⟨.lit (.vMap o), by simp [serializeField_def, h1, h2, h3]⟩
        | vStruct gs =>
          exact ⟨.obj (serializeFields gs), by simp [serializeField_def, h1, h2, h3]⟩
        | vPtr o =>
          cases o with
          | none => simp [isNilPtr] at h2
          | some p =>
            cases p with
            | vString t => exact ⟨.obj [], by simp [serializeField_def, h1, h2, h3]⟩
            | vInt k => exact ⟨.obj [], by simp [serializeField_def, h1, h2, h3]⟩
            | vBool b => exact ⟨.obj [], by simp [serializeField_def, h1, h2, h3]⟩
            | vSlice o2 => exact ⟨.obj [], by simp [serializeField_def, h1, h2, h3]⟩
            | vMap o2 => exact ⟨.obj [], by simp [serializeField_def, h1, h2, h3]⟩
            | vStruct gs =>
              exact ⟨.obj (serializeFields gs), by simp [serializeField_def, h1, h2, h3]⟩
            | vPtr o2 => exact ⟨.obj [], by simp [serializeField_def, h1, h2, h3]⟩

/-- Secret-tagged fields are skipped outright: the walk of a field list
equals the walk of the list with them removed. -/
theorem serializeFields_filter_secret (fs : List GoField) :
    serializeFields fs =
      serializeFields (fs.filter (fun f => !(f.secretTag == "true"))) := by
  induction fs with
  | nil => rfl
  | cons f rest ih =>
    cases f with
    | mk n j s v =>
      by_cases h : s = "true"
      · subst h
        simp only [List.filter_cons, GoField.secretTag_mk]
        simpa [serializeFields_cons, serializeField_def] using ih
      · have hb : (!(s == "true")) = true := by simp [h]
        simp only [List.filter_cons, GoField.secretTag_mk]
        rw [if_pos hb]
        simp only [serializeFields_cons]
        rw [ih]

/-- The rendered keys, in order, are a sublist of the non-secret fields'
declared json names. -/
theorem serializeFields_keys_sublist (fs : List GoField) :
    List.Sublist ((serializeFields fs).map Prod.fst)
      (((fs.filter (fun f => !(f.secretTag == "true"))).map
        (fun f => jsonKey f.jsonTag))) := by
  induction fs with
  | nil => simp [serializeFields_nil]
  | cons f rest ih =>
    cases f with
    | mk n j s v =>
      by_cases h : s = "true"
      · subst h
        simp only [List.filter_cons, GoField.secretTag_mk]
        simpa [serializeFields_cons, serializeField_def] using ih
      · have hb : (!(s == "true")) = true := by simp [h]
        simp only [List.filter_cons, GoField.secretTag_mk]
        rw [if_pos hb]
        simp only [List.map_cons, GoField.jsonTag_mk]
        rcases serializeField_key n j s v with hf | ⟨rv, hf⟩
        · simp only [serializeFields_cons, hf, List.nil_append]
          exact ih.cons _
        · simp only [serializeFields_cons, hf, List.singleton_append,
            List.map_cons]
          exact ih.cons₂ _

/-- A field that survives all three skip checks renders through the
type-kind switch. -/
theorem serializeField_rendered (n j s : String) (v : GoValue)
    (hs : s ≠ "true") (hnil : isNilPtr v = false)
    (hz : (hasOmitempty j && v.isZero) = false) :
    serializeField (.mk n j s v) =
      (match v with
       | .vStruct gs => [(jsonKey j, .obj (serializeFields gs))]
       | .vPtr (some (.vStruct gs)) => [(jsonKey j, .obj (serializeFields gs))]
       | .vPtr _ => [(jsonKey j, .obj [])]
       | w => [(jsonKey j, .lit w)]) := by
  rw [serializeField_def, if_neg (by simp [hs]), if_neg (by simp [hnil]),
    if_neg (by simp [hz])]
  cases v with
  | vString t => rfl
  | vInt k => rfl
  | vBool b => rfl
  | vSlice o => rfl
  | vMap o => rfl
  | vStruct gs => rfl
  | vPtr o =>
    cases o with
    | none => rfl
    | some p => cases p <;> rfl

/-- The non-secret json names of `BackendConfig`, in declaration order. -/
theorem backendConfig_keys (bc : BackendConfig) :
    ((BackendConfig.fields bc).filter (fun f => !(f.secretTag == "true"))).map
      (fun f => jsonKey f.jsonTag) =
    ["blob_file", "dir", "readahead", "readahead_sec", "host", "repo",
     "blob_url_scheme", "blob_redirected_host", "mirrors", "endpoint",
     "bucket_name", "object_prefix", "scheme", "skip_verify", "proxy",
     "timeout", "connect_timeout", "retry_limit"] := rfl

/-- Entries contributed by a member field are entries of the whole walk. -/
theorem mem_serializeFields (fs : List GoField) (f : GoField)
    (e : String × RValue) (hf : f ∈ fs) (he : e ∈ serializeField f) :
    e ∈ serializeFields fs := by
  induction fs with
  | nil => cases hf
  | cons g rest ih =>
    rcases List.mem_cons.mp hf with rfl | hmem
    · exact List.mem_append.mpr (Or.inl he)
    · exact List.mem_append.mpr (Or.inr (ih hmem))

/-! ## Claims about the redactor -/

/-- C1: the redacted serialization contains no entry for any field
declared `secret:"true"`, whatever that field's value: walking a field
list equals walking it with the secret fields removed (the statement holds
for every field list, hence for every struct the walk reaches recursively
at any depth), and concretely no key of a redacted `BackendConfig` — for
any field values — is `auth`, `registry_token`, `access_key_id` or
`access_key_secret`. -/
theorem redact_omits_secret_fields :
    (∀ fs : List GoField,
        serializeFields fs =
          serializeFields (fs.filter (fun f => !(f.secretTag == "true")))) ∧
    (∀ bc : BackendConfig,
        ∀ k ∈ (serializeWithSecretFilter (BackendConfig.toGoValue bc)).map
          Prod.fst,
        k ≠ "auth" ∧ k ≠ "registry_token" ∧ k ≠ "access_key_id" ∧
          k ≠ "access_key_secret") := by
  refine ⟨serializeFields_filter_secret, ?_⟩
  intro bc k hk
  have hsub := serializeFields_keys_sublist (BackendConfig.fields bc)
  rw [backendConfig_keys] at hsub
  have hk2 := hsub.subset hk
  fin_cases hk2 <;> exact ⟨by decide, by decide, by decide, by decide⟩

/-- C6: a field tagged `omitempty` whose value equals its type's zero
value, and any nil pointer field, contribute nothing to the redaction: the
walk with such a field at the head equals the walk without it, so no null
or placeholder appears under the field's key. -/
theorem redact_omits_zero_and_nil
    (n j s : String) (v : GoValue) (rest : List GoField)
    (h : v = .vPtr none ∨ (hasOmitempty j = true ∧ v.isZero = true)) :
    serializeFields (.mk n j s v :: rest) = serializeFields rest := by
  rcases h with rfl | ⟨h1, h2⟩
  · rw [serializeFields_cons, serializeField_def]
    simp [isNilPtr]
  · rw [serializeFields_cons, serializeField_def]
    simp [h1, h2]

/-- C6 witness: a zero `omitempty` int (`Timeout`) and a nil pointer
field are both dropped, leaving only the populated field. -/
theorem redact_omits_zero_and_nil_witness :
    serializeFields
        [.mk "Timeout" "timeout,omitempty" "" (.vInt 0),
         .mk "Host" "host,omitempty" "" (.vString "example.com")] =
      serializeFields [.mk "Host" "host,omitempty" "" (.vString "example.com")] :=
  redact_omits_zero_and_nil "Timeout" "timeout,omitempty" "" (.vInt 0)
    [.mk "Host" "host,omitempty" "" (.vString "example.com")]
    (Or.inr ⟨rfl, rfl⟩)

/-- C7 counterexample: a rendered field whose struct declares no json
name is keyed by the empty string — `jsonTags[0]` of the empty tag — not
by the field's own name `Foo`, so the declared fallback-to-field-name does
not happen. -/
theorem redact_key_fallback_counterexample :
    serializeFields [.mk "Foo" "" "" (.vString "x")] =
      [("", .lit (.vString "x"))] ∧
    ¬ ("Foo" ∈ (serializeFields [.mk "Foo" "" "" (.vString "x")]).map
      Prod.fst) := by
  constructor
  · rfl
  · decide

/-- C7 (amended): every rendered entry is keyed by the first
comma-separated component of its field's json tag — the declared JSON
name when one is present, the empty string (not the field name) when none
is — and the rendered fields of `BackendConfig` have pairwise distinct
keys, so no field appears twice. -/
theorem redact_keys_are_declared_names :
    (∀ fs : List GoField, ∀ e ∈ serializeFields fs,
        ∃ f, f ∈ fs ∧ e.1 = jsonKey f.jsonTag) ∧
    (∀ bc : BackendConfig,
        ((serializeWithSecretFilter (BackendConfig.toGoValue bc)).map
          Prod.fst).Nodup) := by
  constructor
  · intro fs
    induction fs with
    | nil => intro e he; rw [serializeFields_nil] at he; cases he
    | cons f rest ih =>
      intro e he
      rw [serializeFields_cons] at he
      rcases List.mem_append.mp he with h1 | h2
      · cases f with
        | mk n j s v =>
          rcases serializeField_key n j s v with hf | ⟨rv, hf⟩
          · rw [hf] at h1; cases h1
          · rw [hf] at h1
            have he2 := List.mem_singleton.mp h1
            subst he2
            exact ⟨.mk n j s v, List.mem_cons_self _ _, rfl⟩
      · obtain ⟨f2, hf2, hkey⟩ := ih e h2
        exact ⟨f2, List.mem_cons_of_mem _ hf2, hkey⟩
  · intro bc
    have hsub := serializeFields_keys_sublist (BackendConfig.fields bc)
    rw [backendConfig_keys] at hsub
    exact List.Nodup.sublist hsub (by decide)

/-- C10: slice- and map-valued fields are rendered as their literal
value; recursion happens only for struct fields and non-nil pointer
fields, never into slice elements or map entries — concretely, a non-nil
`Mirrors` slice appears as the literal slice of (unredacted) mirror
structs. -/
theorem redact_literal_slices_and_maps :
    (∀ (n j s : String) (o : Option (List GoValue)) (rest : List GoField),
        s ≠ "true" → ¬(hasOmitempty j = true ∧ o = none) →
        serializeFields (.mk n j s (.vSlice o) :: rest) =
          (jsonKey j, .lit (.vSlice o)) :: serializeFields rest) ∧
    (∀ (n j s : String) (o : Option (List (String × GoValue)))
        (rest : List GoField),
        s ≠ "true" → ¬(hasOmitempty j = true ∧ o = none) →
        serializeFields (.mk n j s (.vMap o) :: rest) =
          (jsonKey j, .lit (.vMap o)) :: serializeFields rest) ∧
    (∀ (n j s : String) (gs rest : List GoField),
        s ≠ "true" → ¬(hasOmitempty j = true ∧ goFieldsZero gs = true) →
        serializeFields (.mk n j s (.vStruct gs) :: rest) =
          (jsonKey j, .obj (serializeFields gs)) :: serializeFields rest) ∧
    (∀ (n j s : String) (gs rest : List GoField),
        s ≠ "true" →
        serializeFields (.mk n j s (.vPtr (some (.vStruct gs))) :: rest) =
          (jsonKey j, .obj (serializeFields gs)) :: serializeFields rest) ∧
    (∀ (bc : BackendConfig) (ms : List MirrorConfig), bc.Mirrors = some ms →
        ("mirrors", RValue.lit (.vSlice (some (ms.map (fun m =>
            GoValue.vStruct (MirrorConfig.fields m)))))) ∈
          serializeWithSecretFilter (BackendConfig.toGoValue bc)) := by
  have hzslice : ∀ (j : String) (o : Option (List GoValue)),
      ¬(hasOmitempty j = true ∧ o = none) →
      (hasOmitempty j && (GoValue.vSlice o).isZero) = false := by
    intro j o hz
    cases ho : hasOmitempty j
    · simp
    · cases o with
      | none => exact absurd ⟨ho, rfl⟩ hz
      | some l => simp [GoValue.isZero]
  have hzmap : ∀ (j : String) (o : Option (List (String × GoValue))),
      ¬(hasOmitempty j = true ∧ o = none) →
      (hasOmitempty j && (GoValue.vMap o).isZero) = false := by
    intro j o hz
    cases ho : hasOmitempty j
    · simp
    · cases o with
      | none => exact absurd ⟨ho, rfl⟩ hz
      | some l => simp [GoValue.isZero]
  refine ⟨?_, ?_, ?_, ?_, ?_⟩
  · intro n j s o rest hs hz
    rw [serializeFields_cons,
      serializeField_rendered n j s (.vSlice o) hs rfl (hzslice j o hz)]
    rfl
  · intro n j s o rest hs hz
    rw [serializeFields_cons,
      serializeField_rendered n j s (.vMap o) hs rfl (hzmap j o hz)]
    rfl
  · intro n j s gs rest hs hz
    have hzs : (hasOmitempty j && (GoValue.vStruct gs).isZero) = false := by
      cases ho : hasOmitempty j
      · simp
      · cases hg : goFieldsZero gs
        · simp [GoValue.isZero, hg]
        · exact absurd ⟨ho, hg⟩ hz
    rw [serializeFields_cons,
      serializeField_rendered n j s (.vStruct gs) hs rfl hzs]
    rfl
  · intro n j s gs rest hs
    rw [serializeFields_cons,
      serializeField_rendered n j s (.vPtr (some (.vStruct gs))) hs rfl
        (by simp [GoValue.isZero])]
    rfl
  · intro bc ms hm
    apply mem_serializeFields (BackendConfig.fields bc)
      (.mk "Mirrors" "mirrors,omitempty" ""
        (.vSlice (some (ms.map (fun m => GoValue.vStruct (MirrorConfig.fields m))))))
    · simp [BackendConfig.fields, hm]
    · have : serializeField (.mk "Mirrors" "mirrors,omitempty" ""
          (.vSlice (some (ms.map (fun m =>
            GoValue.vStruct (MirrorConfig.fields m)))))) =
          [("mirrors", RValue.lit (.vSlice (some (ms.map (fun m =>
            GoValue.vStruct (MirrorConfig.fields m)))))) ] := rfl
      rw [this]
      exact List.mem_singleton_self _

/-! ## Claims about the supplement orchestration -/

/-- The registry branch, split on the mirror update's outcome. -/
theorem SupplementDaemonConfig_registry_split
    (c : DaemonConfigModel) (env : SupplementEnv) (info : SupplementInfo)
    (img : Image) (hparse : env.parseImage info.imageID = .ok img)
    (hbt : c.backendType = "registry") :
    SupplementDaemonConfig c env info =
      match c.updateMirrorsErr env.mirrorsConfigDir
          (effectiveRegistryHost env info img) with
      | some e =>
        ([.updateMirrors env.mirrorsConfigDir (effectiveRegistryHost env info img)],
         some ("update mirrors config: " ++ e))
      | none =>
        ([.updateMirrors env.mirrorsConfigDir (effectiveRegistryHost env info img),
          .supplement (effectiveRegistryHost env info img) img.Repo
            info.snapshotID info.params,
          .fillAuth (env.getRegistryKeyChain (effectiveRegistryHost env info img)
            info.imageID info.labels)], none) := by
  unfold SupplementDaemonConfig effectiveRegistryHost
  rw [hparse, hbt]
  rfl

/-- C4: when the image reference does not parse, the call fails with the
wrapped parse error naming the image, and no variant method is invoked at
all (the trace is empty). -/
theorem supplement_parse_failure
    (c : DaemonConfigModel) (env : SupplementEnv) (info : SupplementInfo)
    (e : String) (hparse : env.parseImage info.imageID = .error e) :
    SupplementDaemonConfig c env info =
      ([], some ("parse image " ++ info.imageID ++ ": " ++ e)) := by
  unfold SupplementDaemonConfig
  rw [hparse]

/-- C4 witness: the empty image reference fails to parse and the call
mutates nothing. -/
theorem supplement_parse_failure_witness :
    SupplementDaemonConfig ⟨"registry", fun _ _ => none⟩
        ⟨parseImageSpec, fun h => h, fun _ _ _ => none, "/etc/nydus/certs.d"⟩
        ⟨"", "snap1", false, [], []⟩ =
      ([], some "parse image : invalid reference format") :=
  supplement_parse_failure ⟨"registry", fun _ _ => none⟩
    ⟨parseImageSpec, fun h => h, fun _ _ _ => none, "/etc/nydus/certs.d"⟩
    ⟨"", "snap1", false, [], []⟩ "invalid reference format" rfl

/-- C2: for a registry-backend call whose image reference parses to
`(host, repo)`, the effective host is the VPC rewrite when the VPC flag
is set, else `index.docker.io` when the parsed host is `docker.io`, else
the parsed host unchanged; `UpdateMirrors`, the keychain lookup and
`Supplement` all receive that effective host — and in particular, for
`docker.io/library/busybox:latest` with the VPC flag false,
`UpdateMirrors` is invoked with `index.docker.io`. -/
theorem supplement_effective_host
    (c : DaemonConfigModel) (env : SupplementEnv) (info : SupplementInfo)
    (img : Image) (hparse : env.parseImage info.imageID = .ok img)
    (hbt : c.backendType = "registry") :
    (effectiveRegistryHost env info img =
      (if info.vpcRegistry then env.convertToVPCHost img.Host
       else if img.Host = "docker.io" then "index.docker.io"
       else img.Host)) ∧
    (c.updateMirrorsErr env.mirrorsConfigDir
        (effectiveRegistryHost env info img) = none →
      SupplementDaemonConfig c env info =
        ([.updateMirrors env.mirrorsConfigDir (effectiveRegistryHost env info img),
          .supplement (effectiveRegistryHost env info img) img.Repo
            info.snapshotID info.params,
          .fillAuth (env.getRegistryKeyChain (effectiveRegistryHost env info img)
            info.imageID info.labels)], none)) ∧
    (env.parseImage = parseImageSpec →
      info.imageID = "docker.io/library/busybox:latest" →
      info.vpcRegistry = false →
      ConfigEvent.updateMirrors env.mirrorsConfigDir "index.docker.io" ∈
        (SupplementDaemonConfig c env info).1) := by
  have hsplit := SupplementDaemonConfig_registry_split c env info img hparse hbt
  refine ⟨?_, ?_, ?_⟩
  · unfold effectiveRegistryHost
    by_cases hv : info.vpcRegistry = true
    · rw [if_pos hv, if_pos hv]
    · rw [if_neg hv, if_neg hv]
      by_cases hd : img.Host = "docker.io"
      · rw [if_pos (by simp [hd]), if_pos hd]
      · rw [if_neg (by simp [hd]), if_neg hd]
  · intro hok
    rw [hsplit, hok]
  · intro henv himg hvpc
    have himgv : img = ⟨"docker.io", "library/busybox:latest"⟩ := by
      rw [henv, himg] at hparse
      exact (Except.ok.inj hparse).symm
    have heff : effectiveRegistryHost env info img = "index.docker.io" := by
      rw [himgv]
      unfold effectiveRegistryHost
      rw [if_neg (by simp [hvpc])]
      rfl
    rw [hsplit, heff]
    cases c.updateMirrorsErr env.mirrorsConfigDir "index.docker.io" with
    | some e => exact List.mem_singleton_self _
    | none => exact List.mem_cons_self _ _

/-- C2 witness: the scenario at concrete inputs — registry backend, image
`docker.io/library/busybox:latest`, VPC flag false. -/
theorem supplement_effective_host_witness :
    ConfigEvent.updateMirrors "/etc/nydus/certs.d" "index.docker.io" ∈
      (SupplementDaemonConfig ⟨"registry", fun _ _ => none⟩
        ⟨parseImageSpec, fun h => h, fun _ _ _ => none, "/etc/nydus/certs.d"⟩
        ⟨"docker.io/library/busybox:latest", "snap1", false, [], []⟩).1 :=
  (supplement_effective_host ⟨"registry", fun _ _ => none⟩
    ⟨parseImageSpec, fun h => h, fun _ _ _ => none, "/etc/nydus/certs.d"⟩
    ⟨"docker.io/library/busybox:latest", "snap1", false, [], []⟩
    ⟨"docker.io", "library/busybox:latest"⟩ rfl rfl).2.2 rfl rfl rfl

/-- C5: a registry-backend call whose mirror update fails returns the
wrapped mirror-update error, and neither `Supplement` nor `FillAuth` is
invoked: the trace holds exactly the failed `UpdateMirrors` call. -/
theorem supplement_mirror_failure
    (c : DaemonConfigModel) (env : SupplementEnv) (info : SupplementInfo)
    (img : Image) (e : String)
    (hparse : env.parseImage info.imageID = .ok img)
    (hbt : c.backendType = "registry")
    (herr : c.updateMirrorsErr env.mirrorsConfigDir
        (effectiveRegistryHost env info img) = some e) :
    SupplementDaemonConfig c env info =
      ([.updateMirrors env.mirrorsConfigDir (effectiveRegistryHost env info img)],
       some ("update mirrors config: " ++ e)) ∧
    (∀ ev ∈ (SupplementDaemonConfig c env info).1,
      (∀ h r sid p, ev ≠ .supplement h r sid p) ∧
      (∀ kc, ev ≠ .fillAuth kc)) := by
  have hsplit := SupplementDaemonConfig_registry_split c env info img hparse hbt
  rw [herr] at hsplit
  refine ⟨hsplit, ?_⟩
  intro ev hev
  rw [hsplit] at hev
  have hev2 := List.mem_singleton.mp hev
  subst hev2
  constructor
  · intro h r sid p hne
    cases hne
  · intro kc hne
    cases hne

/-- C5 witness: a failing mirror update at concrete inputs. -/
theorem supplement_mirror_failure_witness :
    SupplementDaemonConfig ⟨"registry", fun _ _ => some "boom"⟩
        ⟨parseImageSpec, fun h => h, fun _ _ _ => none, "/etc/nydus/certs.d"⟩
        ⟨"docker.io/library/busybox:latest", "snap1", false, [], []⟩ =
      ([.updateMirrors "/etc/nydus/certs.d" "index.docker.io"],
       some "update mirrors config: boom") :=
  (supplement_mirror_failure ⟨"registry", fun _ _ => some "boom"⟩
    ⟨parseImageSpec, fun h => h, fun _ _ _ => none, "/etc/nydus/certs.d"⟩
    ⟨"docker.io/library/busybox:latest", "snap1", false, [], []⟩
    ⟨"docker.io", "library/busybox:latest"⟩ "boom" rfl rfl rfl).1

/-- C3 counterexample: a localfs-backend call does not always return
success — with an image reference that fails to parse (here the empty
reference) the call returns the parse error instead. -/
theorem supplement_localfs_counterexample :
    (SupplementDaemonConfig ⟨"localfs", fun _ _ => none⟩
        ⟨parseImageSpec, fun h => h, fun _ _ _ => none, "/etc/nydus/certs.d"⟩
        ⟨"", "snap1", false, [], []⟩).2 =
      some "parse image : invalid reference format" := rfl

/-- C3 (amended): on every call whose image reference parses, a localfs
or oss backend returns success with an empty trace (no `UpdateMirrors`,
`Supplement` or `FillAuth` call), and a backend kind other than
registry/localfs/oss fails with the unknown-backend error naming the
kind, also with an empty trace; a call whose reference does not parse
returns the parse error instead (see the counterexample). -/
theorem supplement_localfs_oss_and_unknown
    (c : DaemonConfigModel) (env : SupplementEnv) (info : SupplementInfo)
    (img : Image) (hparse : env.parseImage info.imageID = .ok img) :
    ((c.backendType = "localfs" ∨ c.backendType = "oss") →
      SupplementDaemonConfig c env info = ([], none)) ∧
    (c.backendType ≠ "registry" → c.backendType ≠ "localfs" →
      c.backendType ≠ "oss" →
      SupplementDaemonConfig c env info =
        ([], some ("unknown backend type " ++ c.backendType))) := by
  constructor
  · rintro (hbt | hbt) <;>
      (unfold SupplementDaemonConfig; rw [hparse, hbt]; rfl)
  · intro h1 h2 h3
    have b1 : (c.backendType == "registry") = false := by simp [h1]
    have b2 : (c.backendType == "localfs") = false := by simp [h2]
    have b3 : (c.backendType == "oss") = false := by simp [h3]
    unfold SupplementDaemonConfig
    rw [hparse]
    simp only [b1, b2, b3, Bool.false_eq_true, if_false]

/-- C3 witness: a localfs call at a parseable image reference succeeds
with an empty trace. -/
theorem supplement_localfs_witness :
    SupplementDaemonConfig ⟨"localfs", fun _ _ => none⟩
        ⟨parseImageSpec, fun h => h, fun _ _ _ => none, "/etc/nydus/certs.d"⟩
        ⟨"docker.io/library/busybox:latest", "snap1", false, [], []⟩ =
      ([], none) :=
  (supplement_localfs_oss_and_unknown ⟨"localfs", fun _ _ => none⟩
    ⟨parseImageSpec, fun h => h, fun _ _ _ => none, "/etc/nydus/certs.d"⟩
    ⟨"docker.io/library/busybox:latest", "snap1", false, [], []⟩
    ⟨"docker.io", "library/busybox:latest"⟩ rfl).1 (Or.inl rfl)

/-- C8: `SupplementDaemonConfig` is idempotent on the variant's observable
state — running the algorithm a second time with identical inputs leaves
the state produced by the first run unchanged (on the success path and on
every error path). -/
theorem supplement_state_idempotent (bt : String)
    (mf : String → String → Except String (List MirrorConfig))
    (env : SupplementEnv) (info : SupplementInfo) (st : VariantState) :
    (SupplementDaemonConfigState bt mf env info
        (SupplementDaemonConfigState bt mf env info st).1).1 =
      (SupplementDaemonConfigState bt mf env info st).1 := by
  obtain ⟨h0, r0, s0, p0, m0, a0⟩ := st
  cases hp : env.parseImage info.imageID with
  | error e => simp [SupplementDaemonConfigState, hp]
  | ok image =>
    by_cases hbt1 : (bt == "registry") = true
    · simp only [SupplementDaemonConfigState, hp, hbt1, if_true]
      cases hmf : mf env.mirrorsConfigDir (effectiveRegistryHost env info image) with
      | error e =>
        simp [VariantState.updateMirrors, hmf]
      | ok ms =>
        cases hkc : env.getRegistryKeyChain (effectiveRegistryHost env info image)
            info.imageID info.labels with
        | none =>
          simp [VariantState.updateMirrors, hmf, VariantState.supplement,
            VariantState.fillAuth, hkc]
        | some k =>
          simp [VariantState.updateMirrors, hmf, VariantState.supplement,
            VariantState.fillAuth, hkc]
    · by_cases hbt2 : (bt == "localfs") = true
      · simp [SupplementDaemonConfigState, hp, hbt1, hbt2]
      · by_cases hbt3 : (bt == "oss") = true
        · simp [SupplementDaemonConfigState, hp, hbt1, hbt2, hbt3]
        · simp [SupplementDaemonConfigState, hp, hbt1, hbt2, hbt3]
